import Mathlib

/-!
Shallow embedding of `src/server.js` (agora-call-server): an Express server
exposing three POST endpoints — `/initiateCall`, `/acceptCall`, `/endCall` —
over a Firebase Realtime Database and FCM messaging.

Modelling conventions:
- A Firebase session record under `calls_sessions/<callId>` is a `Session`
  whose fields are `Option`s (absent JSON field = `none`).  JS string
  truthiness (`!x` true for `undefined`/`""`) is `getTruthy`.
- The session store `calls_sessions` is a total function
  `String → Option Session` (Firebase `.once` read / `.update` write on an
  existing node).  `Store.set` models `callSessionRef.update(fields)`:
  it merges the given fields into the record at one key and touches no
  other key and no other field.
- The device registry `calls/<calleeId>` maps a user id to the list of its
  device entries in JS `for…in` iteration order; a value that is not an
  object (skipped by the `typeof` object check) is `DevEntry.nonObj`.
- `messaging.send` is the only fallible external effect that the handlers
  catch: it is modelled by a parameter `sendResult : Option String`
  (`none` = resolves, `some e` = rejects with `error.message = e`).  Store
  reads/writes are modelled as always succeeding.
- Firebase `ServerValue.TIMESTAMP` is an abstract `now : Nat` parameter.
- Each handler returns its HTTP response together with the store after the
  request and the list of FCM dispatch calls made during the request.
-/

/-- A record under `calls_sessions/<callId>`.  `channel` and `token` are
written by an external provisioning actor; the server writes only the
status/audit fields.  `acceptedBy`/`endedBy`/`endedRole` mirror the request
fields, which may themselves be absent. -/
structure Session where
  channel : Option String := none
  token : Option String := none
  status : Option String := none
  lastRingingAttempt : Option Nat := none
  acceptedBy : Option String := none
  acceptedAt : Option Nat := none
  endedBy : Option String := none
  endedRole : Option String := none
  endedAt : Option Nat := none
deriving DecidableEq

/-- The `calls_sessions` tree: total map from callId to an optional record. -/
def Store := String → Option Session

/-- `callSessionRef.update({...})` on the node at key `c`: replaces the
record at `c`, leaves every other key unchanged. -/
def Store.set (st : Store) (c : String) (s : Session) : Store :=
  fun k => if k = c then some s else st k

/-- A value under `calls/<calleeId>/<deviceId>`: either a JSON object that
may carry an `fcmToken` field, or a non-object value (which the JS loop
skips via its `typeof` object check). -/
inductive DevEntry where
  | obj (fcmToken : Option String)
  | nonObj
deriving DecidableEq

/-- The `calls` tree: map from calleeId to its device entries in `for…in`
iteration order (`none` when the node is absent, i.e. `calleeData` is null). -/
def Registry := String → Option (List (String × DevEntry))

/-- JS truthiness of an optional string field: `some s` exactly when the
field is present and non-empty. -/
def getTruthy : Option String → Option String
  | some s => if s = "" then none else some s
  | none => none

/-- The loop body condition: `calleeData[key] && typeof calleeData[key]
=== object && calleeData[key].fcmToken`, yielding the token when it holds. -/
def devTokenOf : DevEntry → Option String
  | .obj t => getTruthy t
  | .nonObj => none

/-- The `for (const key in calleeData)` loop with `break`: first entry whose
`fcmToken` is truthy, returning (deviceId, fcmToken). -/
def findDeviceToken : List (String × DevEntry) → Option (String × String)
  | [] => none
  | (k, e) :: rest =>
    match devTokenOf e with
    | some t => some (k, t)
    | none => findDeviceToken rest

/-- The `data` section of the FCM message built by `/initiateCall`. -/
structure MsgData where
  type : String
  callId : String
  callerId : String
  channelName : String
  agoraToken : String
deriving DecidableEq

/-- The FCM message passed to `messaging.send` (the display/priority parts
kept as the literal values the source uses). -/
structure Message where
  token : String
  data : MsgData
  notifTitle : String
  notifBody : String
  notifSound : String
  androidPriority : String
  apnsPriority : String
deriving DecidableEq

/-- The message object literal of `/initiateCall` (STEP 3). -/
def mkMessage (devTok callId callerId channelName agoraToken : String) : Message :=
  { token := devTok
  , data := { type := "incoming_call", callId := callId, callerId := callerId
            , channelName := channelName, agoraToken := agoraToken }
  , notifTitle := "Incoming Call"
  , notifBody := callerId ++ " is calling you!"
  , notifSound := "incoming_call.wav"
  , androidPriority := "high"
  , apnsPriority := "10" }

/-- Success body of `/initiateCall`. -/
structure InitOkBody where
  message : String
  callId : String
  channelName : String
  agoraToken : String
deriving DecidableEq

/-- HTTP response of `/initiateCall`: 200 body, or `res.status(code).json(error)`. -/
inductive InitResult where
  | ok (body : InitOkBody)
  | err (status : Nat) (error : String)
deriving DecidableEq

/-- Success body of `/acceptCall` (the `agora` object). -/
structure AcceptOkBody where
  message : String
  channelName : String
  token : String
deriving DecidableEq

/-- HTTP response of `/acceptCall`. -/
inductive AcceptResult where
  | ok (body : AcceptOkBody)
  | err (status : Nat) (error : String)
deriving DecidableEq

/-- HTTP response of `/endCall`. -/
inductive EndResult where
  | ok (message : String)
  | err (status : Nat) (error : String)
deriving DecidableEq

/-- Request body of `/initiateCall` (JSON fields may be absent). -/
structure InitiateReq where
  callId : Option String
  callerId : Option String
  calleeId : Option String

/-- Request body of `/acceptCall`. -/
structure AcceptReq where
  callId : Option String
  calleeId : Option String

/-- Request body of `/endCall`. -/
structure EndReq where
  callId : Option String
  userId : Option String
  role : Option String

def missingParamsInitMsg : String :=
  "Missing required parameters: callId, callerId, or calleeId"

def sessionNotFoundMsg (callId : String) : String :=
  "Call session data not found for callId: " ++ callId ++
    ". Ensure call details are stored in \x27calls_sessions\x27 by primary app."

def channelTokenMissingMsg (callId : String) : String :=
  "Agora channel or token not found under callId: " ++ callId ++ " in Firebase."

def calleeNotFoundMsg (calleeId : String) : String :=
  "Callee data not found for calleeId: " ++ calleeId ++
    ". Secondary app might not have registered its device."

def fcmNotFoundMsg (calleeId : String) : String :=
  "FCM token not found for calleeId: " ++ calleeId ++
    ". Secondary device might not be active or registered its token."

def initiateFailMsg (e : String) : String :=
  "Failed to initiate call: " ++ e

def missingCallIdMsg : String :=
  "Missing required parameter: callId"

def acceptNotFoundMsg (callId : String) : String :=
  "Call data not found for the provided callId: " ++ callId ++ "."

def acceptTokenMissingMsg (callId : String) : String :=
  "Agora channel or token not found in the Firebase data for this callId: " ++ callId ++ "."

def endNotFoundMsg (callId : String) : String :=
  "Call not found for callId: " ++ callId ++ "."

/-- The `/initiateCall` handler.  Returns (response, store after, FCM
dispatch calls made).  Mirrors the source order: validation → session fetch
(404 on absent record, 404 on missing/empty channel/token) → callee fetch
(404 on absent node, 404 when no device entry has a truthy `fcmToken`) →
`callSessionRef.update` with status = ringing and lastRingingAttempt →
`messaging.send` (its rejection is caught and becomes the 500 response). -/
def initiateCall (req : InitiateReq) (st : Store) (reg : Registry)
    (sendResult : Option String) (now : Nat) :
    InitResult × Store × List Message :=
  match getTruthy req.callId, getTruthy req.callerId, getTruthy req.calleeId with
  | some callId, some callerId, some calleeId =>
    match st callId with
    | none => (.err 404 (sessionNotFoundMsg callId), st, [])
    | some sess =>
      match getTruthy sess.channel, getTruthy sess.token with
      | some channelName, some agoraToken =>
        match reg calleeId with
        | none => (.err 404 (calleeNotFoundMsg calleeId), st, [])
        | some calleeData =>
          match findDeviceToken calleeData with
          | none => (.err 404 (fcmNotFoundMsg calleeId), st, [])
          | some (_calleeDeviceId, calleeDeviceToken) =>
            let sess' : Session :=
              { sess with status := some "ringing", lastRingingAttempt := some now }
            let st' := st.set callId sess'
            let msg := mkMessage calleeDeviceToken callId callerId channelName agoraToken
            match sendResult with
            | some e => (.err 500 (initiateFailMsg e), st', [msg])
            | none =>
              (.ok { message := "Call data retrieved and ringing sent"
                   , callId := callId, channelName := channelName
                   , agoraToken := agoraToken }, st', [msg])
      | _, _ => (.err 404 (channelTokenMissingMsg callId), st, [])
  | _, _, _ => (.err 400 missingParamsInitMsg, st, [])

/-- The `/acceptCall` handler.  Returns (response, store after).  Mirrors
the source: `callId` required → session fetch (404 absent, 404 missing/empty
channel/token) → `update` with status = accepted, acceptedBy, acceptedAt →
200 with the `agora` channel/token.  No FCM dispatch occurs. -/
def acceptCall (req : AcceptReq) (st : Store) (now : Nat) :
    AcceptResult × Store :=
  match getTruthy req.callId with
  | none => (.err 400 missingCallIdMsg, st)
  | some callId =>
    match st callId with
    | none => (.err 404 (acceptNotFoundMsg callId), st)
    | some callData =>
      match getTruthy callData.channel, getTruthy callData.token with
      | some channelName, some agoraToken =>
        let callData' : Session :=
          { callData with status := some "accepted", acceptedBy := req.calleeId
                        , acceptedAt := some now }
        (.ok { message := "Call accepted", channelName := channelName
             , token := agoraToken }, st.set callId callData')
      | _, _ => (.err 404 (acceptTokenMissingMsg callId), st)

/-- The `/endCall` handler.  Returns (response, store after).  Mirrors the
source: `callId` required → session fetch (404 absent; no channel/token
check) → `update` with status = ended, endedBy, endedRole, endedAt → 200.
The record is updated, never removed. -/
def endCall (req : EndReq) (st : Store) (now : Nat) :
    EndResult × Store :=
  match getTruthy req.callId with
  | none => (.err 400 missingCallIdMsg, st)
  | some callId =>
    match st callId with
    | none => (.err 404 (endNotFoundMsg callId), st)
    | some callData =>
      let callData' : Session :=
        { callData with status := some "ended", endedBy := req.userId
                      , endedRole := req.role, endedAt := some now }
      (.ok "Call ended", st.set callId callData')

/-! Auxiliary definitions used by the verification statements. -/

/-- A store transition leaves every record's `channel` and `token` fields
exactly as they were. -/
def preservesChanTok (before after : Store) : Prop :=
  ∀ k, (after k).map Session.channel = (before k).map Session.channel ∧
       (after k).map Session.token = (before k).map Session.token

/-- Character-list matching: the first list occurs at the head of the second. -/
def charsHavePre : List Char → List Char → Bool
  | [], _ => true
  | _ :: _, [] => false
  | a :: as, b :: bs => a == b && charsHavePre as bs

/-- Character-list matching: the first list occurs somewhere in the second. -/
def charsHaveSub (pat : List Char) : List Char → Bool
  | [] => charsHavePre pat []
  | c :: rest => charsHavePre pat (c :: rest) || charsHaveSub pat rest

/-- Substring occurrence test on strings (executable). -/
def containsStr (s pat : String) : Bool := charsHaveSub pat.data s.data

/-- `n` successive `/endCall` requests with the same body. -/
def endN (req : EndReq) (now : Nat) : Nat → Store → Store
  | 0, st => st
  | n + 1, st => (endCall req (endN req now n st) now).2

/-- A store holding one provisioned session `c1` with channel `ch1` and
token `tok1` (the concrete scenario of the spec). -/
def st1 : Store :=
  fun k => if k = "c1" then some { channel := some "ch1", token := some "tok1" } else none

/-- A registry where callee `u2` has one device `devA` with FCM token
`dev-abc` (the concrete scenario of the spec). -/
def reg1 : Registry :=
  fun u => if u = "u2" then some [("devA", DevEntry.obj (some "dev-abc"))] else none

/-- The store `st1` after its session has been marked ended. -/
def endedStore : Store :=
  fun k => if k = "c1" then
    some { channel := some "ch1", token := some "tok1", status := some "ended" } else none

/-! Helper lemmas. -/

theorem getTruthy_some {c : String} (h : c ≠ "") : getTruthy (some c) = some c := by
  simp [getTruthy, h]

theorem Store.set_apply (st : Store) (c : String) (s : Session) (k : String) :
    st.set c s k = if k = c then some s else st k := rfl

theorem findDeviceToken_eq_none (l : List (String × DevEntry))
    (h : ∀ p ∈ l, devTokenOf p.2 = none) : findDeviceToken l = none := by
  induction l with
  | nil => rfl
  | cons p rest ih =>
    obtain ⟨k, e⟩ := p
    have h0 := h (k, e) (List.mem_cons_self _ _)
    simp only [findDeviceToken]
    simp only at h0
    rw [h0]
    exact ih fun q hq => h q (List.mem_cons_of_mem _ hq)

theorem findDeviceToken_first (pre : List (String × DevEntry)) (k t : String)
    (rest : List (String × DevEntry)) (ht : t ≠ "")
    (hpre : ∀ p ∈ pre, devTokenOf p.2 = none) :
    findDeviceToken (pre ++ (k, DevEntry.obj (some t)) :: rest) = some (k, t) := by
  induction pre with
  | nil => simp [findDeviceToken, devTokenOf, getTruthy, ht]
  | cons p pre ih =>
    obtain ⟨k', e⟩ := p
    have h0 := hpre (k', e) (List.mem_cons_self _ _)
    simp only at h0
    simp only [List.cons_append, findDeviceToken, h0]
    exact ih fun q hq => hpre q (List.mem_cons_of_mem _ hq)

/-! Claim C1. -/

/-- Claim C1 as stated is false on the code: on a session whose stored
status is `ended`, `/acceptCall` succeeds and overwrites the status to
`accepted`, moving the session out of the Ended state. -/
theorem C1_counterexample :
    (acceptCall ⟨some "c1", some "u2"⟩ endedStore 5).1 =
      .ok ⟨"Call accepted", "ch1", "tok1"⟩ ∧
    ((acceptCall ⟨some "c1", some "u2"⟩ endedStore 5).2 "c1").map Session.status =
      some (some "accepted") := by
  constructor <;> rfl

/-- Claim C1 (amended): no handler consults the stored status.  On an Ended
session with non-empty channel/token, Accept succeeds and overwrites the
status to `accepted`, Initiate (with a resolvable callee device and a
successful dispatch) succeeds and overwrites it to `ringing`, and End
succeeds re-writing `ended`; Ended is not terminal. -/
theorem C1_theorem (st : Store) (reg : Registry) (now : Nat)
    (c caller callee : String) (aid u r : Option String)
    (s : Session) (ch tok : String) (devs : List (String × DevEntry)) (k t : String)
    (hc : c ≠ "") (hcaller : caller ≠ "") (hcallee : callee ≠ "")
    (hs : st c = some s) (_hended : s.status = some "ended")
    (hch : getTruthy s.channel = some ch) (htok : getTruthy s.token = some tok)
    (hreg : reg callee = some devs) (hfind : findDeviceToken devs = some (k, t)) :
    ((acceptCall ⟨some c, aid⟩ st now).1 = .ok ⟨"Call accepted", ch, tok⟩ ∧
      ((acceptCall ⟨some c, aid⟩ st now).2 c).map Session.status = some (some "accepted")) ∧
    ((initiateCall ⟨some c, some caller, some callee⟩ st reg none now).1 =
        .ok ⟨"Call data retrieved and ringing sent", c, ch, tok⟩ ∧
      ((initiateCall ⟨some c, some caller, some callee⟩ st reg none now).2.1 c).map
        Session.status = some (some "ringing")) ∧
    ((endCall ⟨some c, u, r⟩ st now).1 = .ok "Call ended" ∧
      ((endCall ⟨some c, u, r⟩ st now).2 c).map Session.status = some (some "ended")) := by
  refine ⟨⟨?_, ?_⟩, ⟨?_, ?_⟩, ⟨?_, ?_⟩⟩ <;>
    simp [acceptCall, initiateCall, endCall, getTruthy_some hc, getTruthy_some hcaller,
      getTruthy_some hcallee, hs, hch, htok, hreg, hfind, Store.set_apply]

/-- Claim C1 witness: the amended theorem at the concrete ended session. -/
theorem C1_witness :
    (acceptCall ⟨some "c1", some "u2"⟩ endedStore 5).1 =
      .ok ⟨"Call accepted", "ch1", "tok1"⟩ ∧
    ((initiateCall ⟨some "c1", some "u1", some "u2"⟩ endedStore reg1 none 5).2.1 "c1").map
      Session.status = some (some "ringing") :=
  ⟨(C1_theorem endedStore reg1 5 "c1" "u1" "u2" (some "u2") (some "u2") (some "callee")
      { channel := some "ch1", token := some "tok1", status := some "ended" } "ch1" "tok1"
      [("devA", DevEntry.obj (some "dev-abc"))] "devA" "dev-abc"
      (by decide) (by decide) (by decide) rfl rfl rfl rfl rfl rfl).1.1,
   (C1_theorem endedStore reg1 5 "c1" "u1" "u2" (some "u2") (some "u2") (some "callee")
      { channel := some "ch1", token := some "tok1", status := some "ended" } "ch1" "tok1"
      [("devA", DevEntry.obj (some "dev-abc"))] "devA" "dev-abc"
      (by decide) (by decide) (by decide) rfl rfl rfl rfl rfl rfl).2.1.2⟩

/-! Claim C2. -/

/-- Claim C2 as stated is false on the code: when the FCM dispatch fails,
`/initiateCall` does return a 500 dependency error, but the session's
status HAS been updated to `ringing`, because the status write precedes
`messaging.send` in the handler. -/
theorem C2_counterexample :
    (initiateCall ⟨some "c1", some "u1", some "u2"⟩ st1 reg1 (some "network down") 7).1 =
      .err 500 (initiateFailMsg "network down") ∧
    ((initiateCall ⟨some "c1", some "u1", some "u2"⟩ st1 reg1 (some "network down") 7).2.1
        "c1").map Session.status = some (some "ringing") := by
  constructor <;> rfl

/-- Claim C2 (amended): when dispatch fails, Initiate surfaces a 500
dependency error and reports no success, but the Ringing status write has
already happened: the handler writes status `ringing` (with
`lastRingingAttempt`) before dispatching, sends exactly one message, and
returns the 500 error built from the transport error text. -/
theorem C2_theorem (st : Store) (reg : Registry) (now : Nat) (e : String)
    (c caller callee : String) (s : Session) (ch tok : String)
    (devs : List (String × DevEntry)) (k t : String)
    (hc : c ≠ "") (hcaller : caller ≠ "") (hcallee : callee ≠ "")
    (hs : st c = some s)
    (hch : getTruthy s.channel = some ch) (htok : getTruthy s.token = some tok)
    (hreg : reg callee = some devs) (hfind : findDeviceToken devs = some (k, t)) :
    initiateCall ⟨some c, some caller, some callee⟩ st reg (some e) now =
      (.err 500 (initiateFailMsg e),
       st.set c { s with status := some "ringing", lastRingingAttempt := some now },
       [mkMessage t c caller ch tok]) := by
  simp [initiateCall, getTruthy_some hc, getTruthy_some hcaller, getTruthy_some hcallee,
    hs, hch, htok, hreg, hfind]

/-- Claim C2 witness: the amended theorem at the concrete session of the
spec scenario with a failing transport. -/
theorem C2_witness :
    initiateCall ⟨some "c1", some "u1", some "u2"⟩ st1 reg1 (some "boom") 7 =
      (.err 500 (initiateFailMsg "boom"),
       st1.set "c1" { channel := some "ch1", token := some "tok1",
                      status := some "ringing", lastRingingAttempt := some 7 },
       [mkMessage "dev-abc" "c1" "u1" "ch1" "tok1"]) :=
  C2_theorem st1 reg1 7 "boom" "c1" "u1" "u2"
    { channel := some "ch1", token := some "tok1" } "ch1" "tok1"
    [("devA", DevEntry.obj (some "dev-abc"))] "devA" "dev-abc"
    (by decide) (by decide) (by decide) rfl rfl rfl rfl rfl

/-! Claim C3. -/

/-- Claim C3: whenever `/initiateCall` answers 200, exactly one FCM message
was dispatched; its machine-readable `data` payload is
(type = incoming_call, callId, callerId, channelName, token) bound to the
request's callId/callerId and the session's stored channel/token, and the
response carries the same channel/token pair (`body.channelName`,
`body.agoraToken`). -/
theorem C3_theorem (req : InitiateReq) (st : Store) (reg : Registry) (send : Option String)
    (now : Nat) (body : InitOkBody)
    (hok : (initiateCall req st reg send now).1 = .ok body) :
    ∃ c caller s devTok,
      getTruthy req.callId = some c ∧ getTruthy req.callerId = some caller ∧
      st c = some s ∧
      getTruthy s.channel = some body.channelName ∧
      getTruthy s.token = some body.agoraToken ∧
      body.callId = c ∧
      (initiateCall req st reg send now).2.2 =
        [mkMessage devTok c caller body.channelName body.agoraToken] ∧
      (mkMessage devTok c caller body.channelName body.agoraToken).data =
        ⟨"incoming_call", c, caller, body.channelName, body.agoraToken⟩ := by
  cases hcid : getTruthy req.callId with
  | none => simp [initiateCall, hcid] at hok
  | some c =>
  cases hcaller : getTruthy req.callerId with
  | none => simp [initiateCall, hcid, hcaller] at hok
  | some caller =>
  cases hcallee : getTruthy req.calleeId with
  | none => simp [initiateCall, hcid, hcaller, hcallee] at hok
  | some callee =>
  cases hs : st c with
  | none => simp [initiateCall, hcid, hcaller, hcallee, hs] at hok
  | some s =>
  cases hch : getTruthy s.channel with
  | none => simp [initiateCall, hcid, hcaller, hcallee, hs, hch] at hok
  | some ch =>
  cases htok : getTruthy s.token with
  | none => simp [initiateCall, hcid, hcaller, hcallee, hs, hch, htok] at hok
  | some tok =>
  cases hreg : reg callee with
  | none => simp [initiateCall, hcid, hcaller, hcallee, hs, hch, htok, hreg] at hok
  | some devs =>
  cases hfind : findDeviceToken devs with
  | none => simp [initiateCall, hcid, hcaller, hcallee, hs, hch, htok, hreg, hfind] at hok
  | some kt =>
  obtain ⟨k, t⟩ := kt
  cases send with
  | some e => simp [initiateCall, hcid, hcaller, hcallee, hs, hch, htok, hreg, hfind] at hok
  | none =>
    simp only [initiateCall, hcid, hcaller, hcallee, hs, hch, htok, hreg, hfind] at hok ⊢
    obtain rfl : body = ⟨"Call data retrieved and ringing sent", c, ch, tok⟩ := by
      cases hok; rfl
    exact ⟨c, caller, s, t, rfl, rfl, hs, hch, htok, rfl, rfl, rfl⟩

/-- Claim C3 witness: the theorem at the spec's concrete scenario
Initiate(c1, u1, u2) on a session provisioned with ch1/tok1. -/
theorem C3_witness :
    ∃ c caller s devTok,
      getTruthy (some "c1") = some c ∧ getTruthy (some "u1") = some caller ∧
      st1 c = some s ∧
      getTruthy s.channel = some "ch1" ∧
      getTruthy s.token = some "tok1" ∧
      "c1" = c ∧
      (initiateCall ⟨some "c1", some "u1", some "u2"⟩ st1 reg1 none 0).2.2 =
        [mkMessage devTok c caller "ch1" "tok1"] ∧
      (mkMessage devTok c caller "ch1" "tok1").data =
        ⟨"incoming_call", c, caller, "ch1", "tok1"⟩ :=
  C3_theorem ⟨some "c1", some "u1", some "u2"⟩ st1 reg1 none 0
    ⟨"Call data retrieved and ringing sent", "c1", "ch1", "tok1"⟩ rfl

/-! Claim C4. -/

/-- Claim C4 as stated is false on the code: the session-absent error body
of `/initiateCall` names the internal store node `calls_sessions`. -/
theorem C4_counterexample :
    (initiateCall ⟨some "c9", some "u1", some "u2"⟩ (fun _ => none) (fun _ => none) none 0).1 =
      .err 404 (sessionNotFoundMsg "c9") ∧
    containsStr (sessionNotFoundMsg "c9") "calls_sessions" = true := by
  constructor
  · rfl
  · decide

/-- Claim C4 (amended): error response bodies never contain credential
values — every error message of the three handlers is one of a fixed set of
templates built only from request fields (and, for the 500 case, the
transport error's own text), never from the stored channel or token — but
they are not free of internal store paths: the Initiate session-absent
message names the `calls_sessions` node. -/
theorem C4_theorem (ireq : InitiateReq) (areq : AcceptReq) (ereq : EndReq)
    (st₁ st₂ st₃ : Store) (reg : Registry) (send : Option String) (now : Nat) :
    (∀ code m, (initiateCall ireq st₁ reg send now).1 = .err code m →
      m = missingParamsInitMsg ∨
      (∃ c, getTruthy ireq.callId = some c ∧
        (m = sessionNotFoundMsg c ∨ m = channelTokenMissingMsg c)) ∨
      (∃ u, getTruthy ireq.calleeId = some u ∧
        (m = calleeNotFoundMsg u ∨ m = fcmNotFoundMsg u)) ∨
      (∃ e, send = some e ∧ m = initiateFailMsg e)) ∧
    (∀ code m, (acceptCall areq st₂ now).1 = .err code m →
      m = missingCallIdMsg ∨
      (∃ c, getTruthy areq.callId = some c ∧
        (m = acceptNotFoundMsg c ∨ m = acceptTokenMissingMsg c))) ∧
    (∀ code m, (endCall ereq st₃ now).1 = .err code m →
      m = missingCallIdMsg ∨
      (∃ c, getTruthy ereq.callId = some c ∧ m = endNotFoundMsg c)) := by
  refine ⟨fun code m h => ?_, fun code m h => ?_, fun code m h => ?_⟩
  · cases hcid : getTruthy ireq.callId with
    | none => simp [initiateCall, hcid] at h; simp [h]
    | some c =>
    cases hcaller : getTruthy ireq.callerId with
    | none => simp [initiateCall, hcid, hcaller] at h; simp [h]
    | some caller =>
    cases hcallee : getTruthy ireq.calleeId with
    | none => simp [initiateCall, hcid, hcaller, hcallee] at h; simp [h]
    | some callee =>
    cases hs : st₁ c with
    | none =>
      simp [initiateCall, hcid, hcaller, hcallee, hs] at h
      exact Or.inr (Or.inl ⟨c, rfl, Or.inl h.2.symm⟩)
    | some s =>
    cases hch : getTruthy s.channel with
    | none =>
      simp [initiateCall, hcid, hcaller, hcallee, hs, hch] at h
      exact Or.inr (Or.inl ⟨c, rfl, Or.inr h.2.symm⟩)
    | some ch =>
    cases htok : getTruthy s.token with
    | none =>
      simp [initiateCall, hcid, hcaller, hcallee, hs, hch, htok] at h
      exact Or.inr (Or.inl ⟨c, rfl, Or.inr h.2.symm⟩)
    | some tok =>
    cases hreg : reg callee with
    | none =>
      simp [initiateCall, hcid, hcaller, hcallee, hs, hch, htok, hreg] at h
      exact Or.inr (Or.inr (Or.inl ⟨callee, rfl, Or.inl h.2.symm⟩))
    | some devs =>
    cases hfind : findDeviceToken devs with
    | none =>
      simp [initiateCall, hcid, hcaller, hcallee, hs, hch, htok, hreg, hfind] at h
      exact Or.inr (Or.inr (Or.inl ⟨callee, rfl, Or.inr h.2.symm⟩))
    | some kt =>
    obtain ⟨k, t⟩ := kt
    cases send with
    | some e =>
      simp [initiateCall, hcid, hcaller, hcallee, hs, hch, htok, hreg, hfind] at h
      exact Or.inr (Or.inr (Or.inr ⟨e, rfl, h.2.symm⟩))
    | none => simp [initiateCall, hcid, hcaller, hcallee, hs, hch, htok, hreg, hfind] at h
  · cases hcid : getTruthy areq.callId with
    | none => simp [acceptCall, hcid] at h; simp [h]
    | some c =>
    cases hs : st₂ c with
    | none =>
      simp [acceptCall, hcid, hs] at h
      exact Or.inr ⟨c, rfl, Or.inl h.2.symm⟩
    | some s =>
    cases hch : getTruthy s.channel with
    | none =>
      simp [acceptCall, hcid, hs, hch] at h
      exact Or.inr ⟨c, rfl, Or.inr h.2.symm⟩
    | some ch =>
    cases htok : getTruthy s.token with
    | none =>
      simp [acceptCall, hcid, hs, hch, htok] at h
      exact Or.inr ⟨c, rfl, Or.inr h.2.symm⟩
    | some tok => simp [acceptCall, hcid, hs, hch, htok] at h
  · cases hcid : getTruthy ereq.callId with
    | none => simp [endCall, hcid] at h; simp [h]
    | some c =>
    cases hs : st₃ c with
    | none =>
      simp [endCall, hcid, hs] at h
      exact Or.inr ⟨c, rfl, h.2.symm⟩
    | some s => simp [endCall, hcid, hs] at h

/-- Claim C4 witness: the amended theorem applied to the session-absent
Initiate error. -/
theorem C4_witness :
    sessionNotFoundMsg "c9" = missingParamsInitMsg ∨
    (∃ c, getTruthy (some "c9") = some c ∧
      (sessionNotFoundMsg "c9" = sessionNotFoundMsg c ∨
       sessionNotFoundMsg "c9" = channelTokenMissingMsg c)) ∨
    (∃ u, getTruthy (some "u2") = some u ∧
      (sessionNotFoundMsg "c9" = calleeNotFoundMsg u ∨
       sessionNotFoundMsg "c9" = fcmNotFoundMsg u)) ∨
    (∃ e, (none : Option String) = some e ∧
      sessionNotFoundMsg "c9" = initiateFailMsg e) :=
  (C4_theorem ⟨some "c9", some "u1", some "u2"⟩ ⟨some "c9", none⟩ ⟨some "c9", none, none⟩
    (fun _ => none) (fun _ => none) (fun _ => none) (fun _ => none) none 0).1
    404 (sessionNotFoundMsg "c9") rfl

/-! Claim C5. -/

/-- Claim C5: no handler's store write ever sets or modifies the `channel`
or `token` fields — after any of the three operations, every record's
channel and token equal their values before the operation. -/
theorem C5_theorem (ireq : InitiateReq) (areq : AcceptReq) (ereq : EndReq)
    (st₁ st₂ st₃ : Store) (reg : Registry) (send : Option String) (now : Nat) :
    preservesChanTok st₁ (initiateCall ireq st₁ reg send now).2.1 ∧
    preservesChanTok st₂ (acceptCall areq st₂ now).2 ∧
    preservesChanTok st₃ (endCall ereq st₃ now).2 := by
  refine ⟨fun k => ?_, fun k => ?_, fun k => ?_⟩
  · unfold initiateCall
    repeat' split
    all_goals simp_all [Store.set_apply]
    all_goals (try (split <;> simp_all))
  · unfold acceptCall
    repeat' split
    all_goals simp_all [Store.set_apply]
    all_goals (try (split <;> simp_all))
  · unfold endCall
    repeat' split
    all_goals simp_all [Store.set_apply]
    all_goals (try (split <;> simp_all))

/-! Claim C6. -/

/-- Claim C6: on a session with non-empty channel/token, a successful
Initiate returns exactly the stored pair, and an Accept on the same callId
against the post-Initiate store succeeds and returns the identical pair. -/
theorem C6_theorem (st : Store) (reg : Registry) (send : Option String) (now now2 : Nat)
    (c caller callee : String) (aid : Option String) (s : Session) (ch tok : String)
    (body : InitOkBody)
    (hc : c ≠ "") (hs : st c = some s)
    (hch : getTruthy s.channel = some ch) (htok : getTruthy s.token = some tok)
    (hok : (initiateCall ⟨some c, some caller, some callee⟩ st reg send now).1 = .ok body) :
    body.channelName = ch ∧ body.agoraToken = tok ∧
    (acceptCall ⟨some c, aid⟩
        (initiateCall ⟨some c, some caller, some callee⟩ st reg send now).2.1 now2).1 =
      .ok ⟨"Call accepted", ch, tok⟩ := by
  by_cases hca : caller = ""
  · simp [initiateCall, getTruthy, hc, hca] at hok
  by_cases hce : callee = ""
  · simp [initiateCall, getTruthy, hc, hca, hce] at hok
  cases hreg : reg callee with
  | none =>
    simp [initiateCall, getTruthy_some hc, getTruthy_some hca, getTruthy_some hce,
      hs, hch, htok, hreg] at hok
  | some devs =>
    cases hfind : findDeviceToken devs with
    | none =>
      simp [initiateCall, getTruthy_some hc, getTruthy_some hca, getTruthy_some hce,
        hs, hch, htok, hreg, hfind] at hok
    | some kt =>
      obtain ⟨k, t⟩ := kt
      cases send with
      | some e =>
        simp [initiateCall, getTruthy_some hc, getTruthy_some hca, getTruthy_some hce,
          hs, hch, htok, hreg, hfind] at hok
      | none =>
        simp only [initiateCall, getTruthy_some hc, getTruthy_some hca, getTruthy_some hce,
          hs, hch, htok, hreg, hfind] at hok ⊢
        obtain rfl : body = ⟨"Call data retrieved and ringing sent", c, ch, tok⟩ := by
          cases hok; rfl
        refine ⟨rfl, rfl, ?_⟩
        simp [acceptCall, getTruthy_some hc, Store.set_apply, hch, htok]

/-- Claim C6 witness: Initiate then Accept on the spec's concrete session
both return the pair (ch1, tok1). -/
theorem C6_witness :
    "ch1" = "ch1" ∧ "tok1" = "tok1" ∧
    (acceptCall ⟨some "c1", some "u2"⟩
        (initiateCall ⟨some "c1", some "u1", some "u2"⟩ st1 reg1 none 0).2.1 1).1 =
      .ok ⟨"Call accepted", "ch1", "tok1"⟩ :=
  C6_theorem st1 reg1 none 0 1 "c1" "u1" "u2" (some "u2")
    { channel := some "ch1", token := some "tok1" } "ch1" "tok1"
    ⟨"Call data retrieved and ringing sent", "c1", "ch1", "tok1"⟩
    (by decide) rfl rfl rfl rfl

/-! Claim C7. -/

/-- Claim C7: with a valid request and a provisioned session, Initiate
fails with 404 when the callee node is absent, and with 404 when no device
entry carries a truthy `fcmToken`; when some entry does, the first such
entry in iteration order is used: Initiate succeeds (dispatch succeeding)
and the single dispatched message carries that entry's token. -/
theorem C7_theorem (st : Store) (reg : Registry) (send : Option String) (now : Nat)
    (c caller callee : String) (s : Session) (ch tok : String)
    (hc : c ≠ "") (hcaller : caller ≠ "") (hcallee : callee ≠ "")
    (hs : st c = some s)
    (hch : getTruthy s.channel = some ch) (htok : getTruthy s.token = some tok) :
    (reg callee = none →
      (initiateCall ⟨some c, some caller, some callee⟩ st reg send now).1 =
        .err 404 (calleeNotFoundMsg callee)) ∧
    (∀ devs, reg callee = some devs → (∀ p ∈ devs, devTokenOf p.2 = none) →
      (initiateCall ⟨some c, some caller, some callee⟩ st reg send now).1 =
        .err 404 (fcmNotFoundMsg callee)) ∧
    (∀ devs pre k t rest, reg callee = some devs →
      devs = pre ++ (k, DevEntry.obj (some t)) :: rest → t ≠ "" →
      (∀ p ∈ pre, devTokenOf p.2 = none) →
      (initiateCall ⟨some c, some caller, some callee⟩ st reg none now).1 =
        .ok ⟨"Call data retrieved and ringing sent", c, ch, tok⟩ ∧
      (initiateCall ⟨some c, some caller, some callee⟩ st reg none now).2.2 =
        [mkMessage t c caller ch tok]) := by
  refine ⟨fun hreg => ?_, fun devs hreg hnone => ?_,
    fun devs pre k t rest hreg hdevs ht hpre => ?_⟩
  · simp [initiateCall, getTruthy_some hc, getTruthy_some hcaller, getTruthy_some hcallee,
      hs, hch, htok, hreg]
  · simp [initiateCall, getTruthy_some hc, getTruthy_some hcaller, getTruthy_some hcallee,
      hs, hch, htok, hreg, findDeviceToken_eq_none devs hnone]
  · subst hdevs
    constructor <;>
      simp [initiateCall, getTruthy_some hc, getTruthy_some hcaller, getTruthy_some hcallee,
        hs, hch, htok, hreg, findDeviceToken_first pre k t rest ht hpre]

/-- Claim C7 witness: first-match resolution on the concrete registry where
u2 has the single device devA with token dev-abc. -/
theorem C7_witness :
    (initiateCall ⟨some "c1", some "u1", some "u2"⟩ st1 reg1 none 0).1 =
      .ok ⟨"Call data retrieved and ringing sent", "c1", "ch1", "tok1"⟩ ∧
    (initiateCall ⟨some "c1", some "u1", some "u2"⟩ st1 reg1 none 0).2.2 =
      [mkMessage "dev-abc" "c1" "u1" "ch1" "tok1"] :=
  (C7_theorem st1 reg1 none 0 "c1" "u1" "u2"
      { channel := some "ch1", token := some "tok1" } "ch1" "tok1"
      (by decide) (by decide) (by decide) rfl rfl rfl).2.2
    [("devA", DevEntry.obj (some "dev-abc"))] [] "devA" "dev-abc" []
    rfl rfl (by decide) (by simp)

/-! Claim C8. -/

/-- Claim C8: with a valid request, Initiate answers 404 with the
session-absent message when no record exists, and 404 with the
provisioning-defect message when a record exists but its channel or token
is absent/empty; the two messages differ for every callId. -/
theorem C8_theorem (st : Store) (reg : Registry) (send : Option String) (now : Nat)
    (c caller callee : String)
    (hc : c ≠ "") (hcaller : caller ≠ "") (hcallee : callee ≠ "") :
    (st c = none →
      initiateCall ⟨some c, some caller, some callee⟩ st reg send now =
        (.err 404 (sessionNotFoundMsg c), st, [])) ∧
    (∀ s, st c = some s → getTruthy s.channel = none ∨ getTruthy s.token = none →
      initiateCall ⟨some c, some caller, some callee⟩ st reg send now =
        (.err 404 (channelTokenMissingMsg c), st, [])) ∧
    sessionNotFoundMsg c ≠ channelTokenMissingMsg c := by
  refine ⟨fun h => ?_, fun s hs hmiss => ?_, fun h => ?_⟩
  · simp [initiateCall, getTruthy_some hc, getTruthy_some hcaller, getTruthy_some hcallee, h]
  · rcases hmiss with hm | hm
    · simp [initiateCall, getTruthy_some hc, getTruthy_some hcaller, getTruthy_some hcallee,
        hs, hm]
    · cases hchan : getTruthy s.channel <;>
        simp [initiateCall, getTruthy_some hc, getTruthy_some hcaller, getTruthy_some hcallee,
          hs, hm, hchan]
  · have h2 := congrArg String.length h
    simp only [sessionNotFoundMsg, channelTokenMissingMsg, String.length_append] at h2
    have e1 : ("Call session data not found for callId: ").length = 40 := rfl
    have e2 : (". Ensure call details are stored in \x27calls_sessions\x27 by primary app.").length
      = 68 := rfl
    have e3 : ("Agora channel or token not found under callId: ").length = 47 := rfl
    have e4 : (" in Firebase.").length = 13 := rfl
    omega

/-- Claim C8 witness: the two 404 cases at the concrete callId c9, with the
two messages distinct. -/
theorem C8_witness :
    initiateCall ⟨some "c9", some "u1", some "u2"⟩ st1 reg1 none 0 =
      (.err 404 (sessionNotFoundMsg "c9"), st1, []) ∧
    sessionNotFoundMsg "c9" ≠ channelTokenMissingMsg "c9" :=
  ⟨(C8_theorem st1 reg1 none 0 "c9" "u1" "u2" (by decide) (by decide) (by decide)).1 rfl,
   (C8_theorem st1 reg1 none 0 "c9" "u1" "u2" (by decide) (by decide) (by decide)).2.2⟩

/-! Claim C9. -/

/-- Claim C9: End can be repeated any number of times on an existing
session: the record survives every End with its channel/token intact, each
End answers 200, and an Accept after any positive number of Ends still
succeeds and returns the stored channel/token pair. -/
theorem C9_theorem (st : Store) (c : String) (u r aid : Option String) (now now2 : Nat)
    (s : Session) (ch tok : String)
    (hc : c ≠ "") (hs : st c = some s)
    (hch : getTruthy s.channel = some ch) (htok : getTruthy s.token = some tok) :
    (∀ n, ∃ s', endN ⟨some c, u, r⟩ now n st c = some s' ∧
      s'.channel = s.channel ∧ s'.token = s.token) ∧
    (∀ n, (endCall ⟨some c, u, r⟩ (endN ⟨some c, u, r⟩ now n st) now).1 = .ok "Call ended") ∧
    (∀ n, (acceptCall ⟨some c, aid⟩ (endN ⟨some c, u, r⟩ now (n + 1) st) now2).1 =
      .ok ⟨"Call accepted", ch, tok⟩) := by
  have key : ∀ n, ∃ s', endN ⟨some c, u, r⟩ now n st c = some s' ∧
      s'.channel = s.channel ∧ s'.token = s.token := by
    intro n
    induction n with
    | zero => exact ⟨s, hs, rfl, rfl⟩
    | succ n ih =>
      obtain ⟨s', hs', hch', htok'⟩ := ih
      refine ⟨{ s' with status := some "ended", endedBy := u, endedRole := r, endedAt := some now }, ?_, hch', htok'⟩
      simp [endN, endCall, getTruthy_some hc, hs', Store.set_apply]
  refine ⟨key, fun n => ?_, fun n => ?_⟩
  · obtain ⟨s', hs', _, _⟩ := key n
    simp [endCall, getTruthy_some hc, hs']
  · obtain ⟨s', hs', hch', htok'⟩ := key (n + 1)
    simp [acceptCall, getTruthy_some hc, hs', hch' ▸ hch, htok' ▸ htok]

/-- Claim C9 witness: two Ends then an Accept on the concrete session, the
Accept still returning (ch1, tok1). -/
theorem C9_witness :
    (endCall ⟨some "c1", some "u2", some "callee"⟩
        (endN ⟨some "c1", some "u2", some "callee"⟩ 3 1 st1) 3).1 = .ok "Call ended" ∧
    (acceptCall ⟨some "c1", some "u2"⟩
        (endN ⟨some "c1", some "u2", some "callee"⟩ 3 2 st1) 4).1 =
      .ok ⟨"Call accepted", "ch1", "tok1"⟩ :=
  ⟨(C9_theorem st1 "c1" (some "u2") (some "callee") (some "u2") 3 4
      { channel := some "ch1", token := some "tok1" } "ch1" "tok1"
      (by decide) rfl rfl rfl).2.1 1,
   (C9_theorem st1 "c1" (some "u2") (some "callee") (some "u2") 3 4
      { channel := some "ch1", token := some "tok1" } "ch1" "tok1"
      (by decide) rfl rfl rfl).2.2 1⟩

/-! Claim C10. -/

/-- Claim C10: whenever any of the three handlers answers 400 or 404, the
session store is exactly the store the request started from — every
validation and existence/field check precedes the first store write. -/
theorem C10_theorem (ireq : InitiateReq) (areq : AcceptReq) (ereq : EndReq)
    (st₁ st₂ st₃ : Store) (reg : Registry) (send : Option String) (now : Nat) :
    (∀ code m, (initiateCall ireq st₁ reg send now).1 = .err code m →
      code = 400 ∨ code = 404 → (initiateCall ireq st₁ reg send now).2.1 = st₁) ∧
    (∀ code m, (acceptCall areq st₂ now).1 = .err code m →
      code = 400 ∨ code = 404 → (acceptCall areq st₂ now).2 = st₂) ∧
    (∀ code m, (endCall ereq st₃ now).1 = .err code m →
      code = 400 ∨ code = 404 → (endCall ereq st₃ now).2 = st₃) := by
  refine ⟨fun code m h hcode => ?_, fun code m h hcode => ?_, fun code m h hcode => ?_⟩
  · unfold initiateCall at h ⊢
    repeat' split at h
    all_goals simp_all
    all_goals (obtain ⟨h5, -⟩ := h; omega)
  · unfold acceptCall at h ⊢
    repeat' split at h
    all_goals simp_all
  · unfold endCall at h ⊢
    repeat' split at h
    all_goals simp_all

/-- Claim C10 witness: a 404 Initiate (absent session) leaves the concrete
store untouched. -/
theorem C10_witness :
    (initiateCall ⟨some "c9", some "u1", some "u2"⟩ st1 reg1 none 0).2.1 = st1 :=
  (C10_theorem ⟨some "c9", some "u1", some "u2"⟩ ⟨some "c9", none⟩ ⟨some "c9", none, none⟩
      st1 st1 st1 reg1 none 0).1
    404 (sessionNotFoundMsg "c9") rfl (Or.inr rfl)
